import Mathlib

/-!
# Management command bootstrap (`cmd/management.go`)

A shallow embedding of the `Run` function of `mgmtCmd` and of `init`.

`Run` is straight-line Go code over calls into libraries (`flag`, `net`,
`fmt`, `logrus`, `grpc`, the management package).  Every such call is recorded
as an `Event`; the outcomes the environment decides (does `flag.Parse` return
or exit, does `net.Listen` succeed, does `Serve` block, return nil or return an
error, which handles are handed out) are the fields of `Env`.  A computation is a `Proc`: the events performed
so far plus either a returned value or the way the goroutine stopped for good.

Library behaviour taken as given:
* `logrus.Fatalf` logs and then exits the process with status 1;
* `net.Listen` returns either a listener and a nil error, or a nil listener
  and a non-nil error;
* `flag.Parse` is the standard library parser over `os.Args[1:]` with the
  exit-on-error policy: it returns, or it exits the process (status 2 for a
  flag it does not know, status 0 for a help flag);
* `grpc.NewServer`, `mgmt.NewServer`, `RegisterManagementServiceServer`,
  `log.Printf` and `SetupCloseHandler` return to their caller;
* `select {}` with no cases blocks the calling goroutine forever.
-/

namespace Management

/-- Handle of a bound listener (`net.Listener`). -/
structure Listener where
  id : Nat
deriving DecidableEq, Repr

/-- A non-nil Go `error` value. -/
structure GoError where
  id : Nat
deriving DecidableEq, Repr

/-- Handle of a `*grpc.Server`. -/
structure GrpcServer where
  id : Nat
deriving DecidableEq, Repr

/-- Handle of the service implementation returned by `mgmt.NewServer()`. -/
structure MgmtServer where
  id : Nat
deriving DecidableEq, Repr

/-- A `grpc.ServerOption`. -/
structure ServerOption where
  id : Nat
deriving DecidableEq, Repr

/-- Outcome of `flag.Parse()`: it returns, or it exits the process with the
given status (the standard library command-line set exits on a parse error). -/
inductive FlagParseOutcome where
  | returns
  | exits (status : Nat)
deriving DecidableEq, Repr

/-- Outcome of the single `net.Listen` call. -/
inductive ListenOutcome where
  | ok (lis : Listener)
  | fail (err : GoError)
deriving DecidableEq, Repr

/-- Outcome of `grpcServer.Serve(lis)`: it keeps serving and never returns,
or it returns nil (the server was stopped), or it returns an error. -/
inductive ServeOutcome where
  | blocks
  | returnsNil
  | returnsErr (err : GoError)
deriving DecidableEq, Repr

/-- What the environment decides during one execution of `Run`. -/
structure Env where
  flagParse : FlagParseOutcome
  listen : ListenOutcome
  grpcServer : GrpcServer
  mgmtServer : MgmtServer
  serve : ServeOutcome
deriving DecidableEq, Repr

/-- Calls `Run` makes, in the order it makes them.  `fatalf` carries the source
line of the call site, `select` is the empty `select {}` of line 40. -/
inductive Event where
  | flagParse
  | netListen (network : String) (address : String)
  | fatalf (line : Nat) (format : String) (err : GoError)
  | grpcNewServer (opts : List ServerOption) (srv : GrpcServer)
  | mgmtNewServer (impl : MgmtServer)
  | registerManagementServiceServer (srv : GrpcServer) (impl : MgmtServer)
  | printf (format : String) (arg : Int)
  | serve (srv : GrpcServer) (lis : Option Listener)
  | setupCloseHandler
  | select
deriving DecidableEq, Repr

/-- Ways the goroutine executing `Run` stops without returning: the process
exits with a status, or the goroutine stays inside `Serve`, or it is parked at
the empty `select`. -/
inductive Halt where
  | exit (status : Nat)
  | blockedInServe
  | parked
deriving DecidableEq, Repr

/-- Result of a computation: it returned a value to its caller, or it halted. -/
inductive Res (α : Type) where
  | ret (a : α)
  | halt (h : Halt)
deriving DecidableEq, Repr

/-- A computation: the calls performed and how it ended. -/
structure Proc (α : Type) where
  trace : List Event
  res : Res α

/-- Returning a value performs no call. -/
def Proc.pure {α : Type} (a : α) : Proc α := ⟨[], Res.ret a⟩

/-- Sequencing: the continuation runs only when the first part returned. -/
def Proc.bind {α β : Type} (m : Proc α) (f : α → Proc β) : Proc β :=
  match m.res with
  | Res.ret a => ⟨m.trace ++ (f a).trace, (f a).res⟩
  | Res.halt h => ⟨m.trace, Res.halt h⟩

instance : Monad Proc where
  pure := Proc.pure
  bind := Proc.bind

/-- Decimal rendering of a Go `int` by the `%d` verb: a minus sign for a
negative value, then the digits of the magnitude. -/
def fmtD (n : Int) : String :=
  if n < 0 then "-" ++ Nat.repr n.natAbs else Nat.repr n.toNat

/-- The part of `fmt.Sprintf` used here, on the characters of the format:
`%d` and `%v` consume one integer operand and render it in decimal (with no
operand left they print the missing-operand marker), `%%` is a percent sign,
any other character is copied. -/
def sprintfChars : List Char → List Int → List Char
  | '%' :: '%' :: rest, args => '%' :: sprintfChars rest args
  | '%' :: 'd' :: rest, a :: args => (fmtD a).toList ++ sprintfChars rest args
  | '%' :: 'v' :: rest, a :: args => (fmtD a).toList ++ sprintfChars rest args
  | '%' :: 'd' :: rest, [] => "%!d(MISSING)".toList ++ sprintfChars rest []
  | '%' :: 'v' :: rest, [] => "%!v(MISSING)".toList ++ sprintfChars rest []
  | c :: rest, args => c :: sprintfChars rest args
  | [], _ => []

/-- Model of `fmt.Sprintf(format, args...)` for integer operands. -/
def Sprintf (format : String) (args : List Int) : String :=
  String.mk (sprintfChars format.toList args)

/-- A call that returns nothing of interest. -/
def call (e : Event) : Proc Unit := ⟨[e], Res.ret ()⟩

/-- Model of `flag.Parse()`: the call returns or exits the process. -/
def flagParse (env : Env) : Proc Unit :=
  match env.flagParse with
  | FlagParseOutcome.returns => call Event.flagParse
  | FlagParseOutcome.exits status => ⟨[Event.flagParse], Res.halt (Halt.exit status)⟩

/-- Model of `net.Listen(network, address)`: the Go result pair `(lis, err)`. -/
def netListen (env : Env) (network address : String) :
    Proc (Option Listener × Option GoError) :=
  ⟨[Event.netListen network address],
    Res.ret (match env.listen with
      | ListenOutcome.ok l => (some l, none)
      | ListenOutcome.fail e => (none, some e))⟩

/-- Model of `log.Fatalf(format, err)`: log, then exit with status 1. -/
def logFatalf (line : Nat) (format : String) (err : GoError) : Proc Unit :=
  ⟨[Event.fatalf line format err], Res.halt (Halt.exit 1)⟩

/-- Model of `grpc.NewServer(opts...)`. -/
def grpcNewServer (env : Env) (opts : List ServerOption) : Proc GrpcServer :=
  ⟨[Event.grpcNewServer opts env.grpcServer], Res.ret env.grpcServer⟩

/-- Model of `mgmt.NewServer()`. -/
def mgmtNewServer (env : Env) : Proc MgmtServer :=
  ⟨[Event.mgmtNewServer env.mgmtServer], Res.ret env.mgmtServer⟩

/-- Model of `mgmtProto.RegisterManagementServiceServer(srv, impl)`. -/
def registerManagementServiceServer (srv : GrpcServer) (impl : MgmtServer) : Proc Unit :=
  call (Event.registerManagementServiceServer srv impl)

/-- Model of `log.Printf(format, arg)`. -/
def logPrintf (format : String) (arg : Int) : Proc Unit :=
  call (Event.printf format arg)

/-- Model of `grpcServer.Serve(lis)`: the returned `error`, when it returns. -/
def serve (env : Env) (srv : GrpcServer) (lis : Option Listener) : Proc (Option GoError) :=
  match env.serve with
  | ServeOutcome.blocks => ⟨[Event.serve srv lis], Res.halt Halt.blockedInServe⟩
  | ServeOutcome.returnsNil => ⟨[Event.serve srv lis], Res.ret none⟩
  | ServeOutcome.returnsErr e => ⟨[Event.serve srv lis], Res.ret (some e)⟩

/-- Model of `SetupCloseHandler()`. -/
def SetupCloseHandler : Proc Unit := call Event.setupCloseHandler

/-- Model of `select {}`. -/
def selectForever : Proc Unit := ⟨[Event.select], Res.halt Halt.parked⟩

/-- The `Run` function of `mgmtCmd` (lines 20-41), statement by statement.
`mgmtPort` is the value of the package variable when `Run` starts. -/
def Run (mgmtPort : Int) (env : Env) : Proc Unit := do
  flagParse env
  let (lis, err) ← netListen env "tcp" (Sprintf ":%d" [mgmtPort])
  if let some e := err then
    logFatalf 25 "failed to listen: %v" e
  if let some e := err then
    logFatalf 29 "failed to listen: %v" e
  let opts : List ServerOption := []
  let grpcServer ← grpcNewServer env opts
  let impl ← mgmtNewServer env
  registerManagementServiceServer grpcServer impl
  logPrintf "started server: localhost:%v" mgmtPort
  if let some e := (← serve env grpcServer lis) then
    logFatalf 36 "failed to serve: %v" e
  SetupCloseHandler
  selectForever

/-- The body of `Run` with the second `if err != nil` block (lines 28-30)
deleted and nothing else changed. -/
def RunWithoutSecondCheck (mgmtPort : Int) (env : Env) : Proc Unit := do
  flagParse env
  let (lis, err) ← netListen env "tcp" (Sprintf ":%d" [mgmtPort])
  if let some e := err then
    logFatalf 25 "failed to listen: %v" e
  let opts : List ServerOption := []
  let grpcServer ← grpcNewServer env opts
  let impl ← mgmtNewServer env
  registerManagementServiceServer grpcServer impl
  logPrintf "started server: localhost:%v" mgmtPort
  if let some e := (← serve env grpcServer lis) then
    logFatalf 36 "failed to serve: %v" e
  SetupCloseHandler
  selectForever

/-- Is the event a call of `net.Listen`? -/
def Event.isNetListen : Event → Bool
  | Event.netListen _ _ => true
  | _ => false

/-- Is the event a call of `grpc.NewServer`? -/
def Event.isGrpcNewServer : Event → Bool
  | Event.grpcNewServer _ _ => true
  | _ => false

/-- Is the event a call of `RegisterManagementServiceServer`? -/
def Event.isRegister : Event → Bool
  | Event.registerManagementServiceServer _ _ => true
  | _ => false

/-- Is the event a call of `Serve`? -/
def Event.isServe : Event → Bool
  | Event.serve _ _ => true
  | _ => false

/-- Is the event a `log.Fatalf` call? -/
def Event.isFatalf : Event → Bool
  | Event.fatalf _ _ _ => true
  | _ => false

/-- Is the event the `log.Fatalf` call written at the given source line? -/
def Event.isFatalfAt (line : Nat) : Event → Bool
  | Event.fatalf l _ _ => l == line
  | _ => false

/-- An integer flag registered on a flag set: name, default value, usage. -/
structure IntFlag where
  name : String
  value : Int
  usage : String
deriving DecidableEq, Repr

/-- Package-level state of `cmd` touched by this file: the variable `mgmtPort`
and the persistent flags of `mgmtCmd`, every one of which is bound to
`mgmtPort` (the only pointer this file passes to `IntVar`). -/
structure Package where
  mgmtPort : Int
  persistentFlags : List IntFlag
deriving DecidableEq, Repr

/-- Package state before `init`: `var mgmtPort int` has Go's zero value and no
flag is registered. -/
def Package.zero : Package := ⟨0, []⟩

/-- Model of `mgmtCmd.PersistentFlags().IntVar(&mgmtPort, name, value, usage)`:
the variable is set to the default and the flag is registered. -/
def IntVar (pkg : Package) (name : String) (value : Int) (usage : String) : Package :=
  ⟨value, pkg.persistentFlags ++ [⟨name, value, usage⟩]⟩

/-- The package's `init` function (lines 45-47). -/
def init (pkg : Package) : Package :=
  IntVar pkg "port" 33073 "Server port to listen on (e.g. 33073)"

/-- One element of `os.Args[1:]`: a word that does not start with a dash (a
command name or a positional argument), or a flag `--name=value` (equally
`--name value`) whose value text denotes the given integer. -/
inductive Arg where
  | word (s : String)
  | flag (name : String) (value : Int)
deriving DecidableEq, Repr

/-- Does the integer fit Go's 64-bit `int`? -/
def int64Range (v : Int) : Bool :=
  decide (-(2 ^ 63 : Int) ≤ v) && decide (v < (2 ^ 63 : Int))

/-- Model of the standard library `flag.Parse()` over `os.Args[1:]`.  This
file defines no flag on the standard command-line set (`port` is registered on
the command's own persistent set, line 46), so the set is taken as empty:
parsing stops at the first word; a flag in first position is not defined and
the process exits, with status 0 for the help names and status 2 otherwise. -/
def stdFlagParse : List Arg → FlagParseOutcome
  | [] => FlagParseOutcome.returns
  | Arg.word _ :: _ => FlagParseOutcome.returns
  | Arg.flag name _ :: _ =>
    if name == "help" || name == "h" then FlagParseOutcome.exits 0
    else FlagParseOutcome.exits 2

/-- The command the arguments select: their first word. -/
def commandName : List Arg → Option String
  | [] => none
  | Arg.word s :: _ => some s
  | Arg.flag _ _ :: rest => commandName rest

/-- Model of the command library's flag parsing for `mgmtCmd`, left to right
over the arguments: words are skipped; a flag with a registered name and a
value that fits a 64-bit `int` stores the value in `mgmtPort`; any other flag
is an error and the command is not run. -/
def parseFlags (pkg : Package) : List Arg → Option Package
  | [] => some pkg
  | Arg.word _ :: rest => parseFlags pkg rest
  | Arg.flag n v :: rest =>
    if pkg.persistentFlags.any (fun f => f.name == n) && int64Range v then
      parseFlags ⟨v, pkg.persistentFlags⟩ rest
    else none

/-- Starting the program with the arguments `argv`: `init` has run at program
start; when the arguments select the command named "management" (its `Use`,
line 18) and its flags parse, `Run` executes with the resulting `mgmtPort`.
The outcome of `flag.Parse()` inside `Run` is the one the same arguments give;
the other outcomes are taken from `env`. -/
def Execute (argv : List Arg) (env : Env) : Option (Proc Unit) :=
  if commandName argv = some "management" then
    (parseFlags (init Package.zero) argv).map (fun pkg =>
      Run pkg.mgmtPort ⟨stdFlagParse argv, env.listen, env.grpcServer, env.mgmtServer,
        env.serve⟩)
  else none

/-! ## Example environments -/

/-- The standard library parser exits on a flag it does not know. -/
def envParseExits : Env :=
  ⟨FlagParseOutcome.exits 2, ListenOutcome.ok ⟨1⟩, ⟨2⟩, ⟨3⟩, ServeOutcome.blocks⟩

/-- The bind fails. -/
def envListenFails : Env :=
  ⟨FlagParseOutcome.returns, ListenOutcome.fail ⟨7⟩, ⟨2⟩, ⟨3⟩, ServeOutcome.returnsNil⟩

/-- The bind succeeds and the server keeps serving. -/
def envServing : Env :=
  ⟨FlagParseOutcome.returns, ListenOutcome.ok ⟨1⟩, ⟨2⟩, ⟨3⟩, ServeOutcome.blocks⟩

/-- The bind succeeds and `Serve` returns nil. -/
def envServeStopped : Env :=
  ⟨FlagParseOutcome.returns, ListenOutcome.ok ⟨1⟩, ⟨2⟩, ⟨3⟩, ServeOutcome.returnsNil⟩

/-- The bind succeeds and `Serve` returns an error. -/
def envServeFails : Env :=
  ⟨FlagParseOutcome.returns, ListenOutcome.ok ⟨1⟩, ⟨2⟩, ⟨3⟩, ServeOutcome.returnsErr ⟨9⟩⟩

/-! ## Shape of the executions of `Run` -/

/-- The format `":%d"` renders as a colon followed by the decimal operand. -/
theorem Sprintf_port (p : Int) : Sprintf ":%d" [p] = ":" ++ fmtD p := by
  apply String.ext
  show sprintfChars [':', '%', 'd'] [p] = [':'] ++ (fmtD p).data
  simp [sprintfChars]

/-- The `%d` rendering agrees with the standard decimal rendering of integers. -/
theorem fmtD_eq_toString (p : Int) : fmtD p = toString p := by
  cases p with
  | ofNat n => simp [fmtD]; rfl
  | negSucc n => simp [fmtD, Int.negSucc_lt_zero]; rfl

/-- The bind address is a colon followed by the decimal rendering. -/
theorem Sprintf_port_toString (p : Int) : Sprintf ":%d" [p] = ":" ++ toString p := by
  rw [Sprintf_port, fmtD_eq_toString]

/-- Execution when `flag.Parse` exits the process. -/
theorem Run_parse_exits (p : Int) (status : Nat) (ls : ListenOutcome) (g : GrpcServer)
    (m : MgmtServer) (s : ServeOutcome) :
    Run p ⟨FlagParseOutcome.exits status, ls, g, m, s⟩ =
      ⟨[Event.flagParse], Res.halt (Halt.exit status)⟩ := rfl

/-- Execution when `net.Listen` fails. -/
theorem Run_listen_fail (p : Int) (g : GrpcServer) (m : MgmtServer) (s : ServeOutcome)
    (e : GoError) :
    Run p ⟨FlagParseOutcome.returns, ListenOutcome.fail e, g, m, s⟩ =
      ⟨[Event.flagParse, Event.netListen "tcp" (Sprintf ":%d" [p]),
        Event.fatalf 25 "failed to listen: %v" e], Res.halt (Halt.exit 1)⟩ := rfl

/-- Execution when `net.Listen` succeeds and `Serve` never returns. -/
theorem Run_serve_blocks (p : Int) (g : GrpcServer) (m : MgmtServer) (l : Listener) :
    Run p ⟨FlagParseOutcome.returns, ListenOutcome.ok l, g, m, ServeOutcome.blocks⟩ =
      ⟨[Event.flagParse, Event.netListen "tcp" (Sprintf ":%d" [p]),
        Event.grpcNewServer [] g, Event.mgmtNewServer m,
        Event.registerManagementServiceServer g m,
        Event.printf "started server: localhost:%v" p,
        Event.serve g (some l)], Res.halt Halt.blockedInServe⟩ := rfl

/-- Execution when `net.Listen` succeeds and `Serve` returns nil. -/
theorem Run_serve_nil (p : Int) (g : GrpcServer) (m : MgmtServer) (l : Listener) :
    Run p ⟨FlagParseOutcome.returns, ListenOutcome.ok l, g, m, ServeOutcome.returnsNil⟩ =
      ⟨[Event.flagParse, Event.netListen "tcp" (Sprintf ":%d" [p]),
        Event.grpcNewServer [] g, Event.mgmtNewServer m,
        Event.registerManagementServiceServer g m,
        Event.printf "started server: localhost:%v" p,
        Event.serve g (some l), Event.setupCloseHandler, Event.select],
        Res.halt Halt.parked⟩ := rfl

/-- Execution when `net.Listen` succeeds and `Serve` returns an error. -/
theorem Run_serve_err (p : Int) (g : GrpcServer) (m : MgmtServer) (l : Listener)
    (e : GoError) :
    Run p ⟨FlagParseOutcome.returns, ListenOutcome.ok l, g, m, ServeOutcome.returnsErr e⟩ =
      ⟨[Event.flagParse, Event.netListen "tcp" (Sprintf ":%d" [p]),
        Event.grpcNewServer [] g, Event.mgmtNewServer m,
        Event.registerManagementServiceServer g m,
        Event.printf "started server: localhost:%v" p,
        Event.serve g (some l), Event.fatalf 36 "failed to serve: %v" e],
        Res.halt (Halt.exit 1)⟩ := rfl

/-- Every environment falls under one of the five shapes above. -/
theorem Run_shapes (env : Env) :
    (∃ status ls g m s, env = ⟨FlagParseOutcome.exits status, ls, g, m, s⟩) ∨
    (∃ g m s e, env = ⟨FlagParseOutcome.returns, ListenOutcome.fail e, g, m, s⟩) ∨
    (∃ g m l, env = ⟨FlagParseOutcome.returns, ListenOutcome.ok l, g, m, ServeOutcome.blocks⟩) ∨
    (∃ g m l, env =
      ⟨FlagParseOutcome.returns, ListenOutcome.ok l, g, m, ServeOutcome.returnsNil⟩) ∨
    (∃ g m l e, env =
      ⟨FlagParseOutcome.returns, ListenOutcome.ok l, g, m, ServeOutcome.returnsErr e⟩) := by
  obtain ⟨fp, ls, g, m, s⟩ := env
  cases fp with
  | exits status => exact Or.inl ⟨status, ls, g, m, s, rfl⟩
  | returns =>
    cases ls with
    | fail e => exact Or.inr (Or.inl ⟨g, m, s, e, rfl⟩)
    | ok l =>
      cases s with
      | blocks => exact Or.inr (Or.inr (Or.inl ⟨g, m, l, rfl⟩))
      | returnsNil => exact Or.inr (Or.inr (Or.inr (Or.inl ⟨g, m, l, rfl⟩)))
      | returnsErr e => exact Or.inr (Or.inr (Or.inr (Or.inr ⟨g, m, l, e, rfl⟩)))

/-- The bind is called exactly in the executions where `flag.Parse` returned. -/
theorem netListen_called_iff (p : Int) (env : Env) :
    (∃ network address, Event.netListen network address ∈ (Run p env).trace) ↔
      env.flagParse = FlagParseOutcome.returns := by
  rcases Run_shapes env with ⟨st, ls, g, m, s, rfl⟩ | ⟨g, m, s, e, rfl⟩ | ⟨g, m, l, rfl⟩ |
    ⟨g, m, l, rfl⟩ | ⟨g, m, l, e, rfl⟩
  · rw [Run_parse_exits]
    simp
  · rw [Run_listen_fail]
    simp
  · rw [Run_serve_blocks]
    simp
  · rw [Run_serve_nil]
    simp
  · rw [Run_serve_err]
    simp

/-- When `flag.Parse` returns, the next call is the bind on the port's address,
every log line reports the port, and after a successful bind the sixth call is
the started-server log line. -/
theorem Run_port_use (q : Int) (ls : ListenOutcome) (g : GrpcServer) (m : MgmtServer)
    (s : ServeOutcome) :
    (Run q ⟨FlagParseOutcome.returns, ls, g, m, s⟩).trace.take 2
      = [Event.flagParse, Event.netListen "tcp" (":" ++ toString q)] ∧
    (∀ format a, Event.printf format a ∈
      (Run q ⟨FlagParseOutcome.returns, ls, g, m, s⟩).trace → a = q) ∧
    (∀ l, ls = ListenOutcome.ok l →
      (Run q ⟨FlagParseOutcome.returns, ls, g, m, s⟩).trace[5]?
        = some (Event.printf "started server: localhost:%v" q)) := by
  cases ls with
  | fail e =>
    rw [Run_listen_fail, Sprintf_port_toString]
    simp
  | ok l =>
    cases s with
    | blocks =>
      rw [Run_serve_blocks, Sprintf_port_toString]
      simp
    | returnsNil =>
      rw [Run_serve_nil, Sprintf_port_toString]
      simp
    | returnsErr e =>
      rw [Run_serve_err, Sprintf_port_toString]
      simp

/-- Started as `management`, the command runs with port 33073 and a returning
`flag.Parse`. -/
theorem Execute_default (env : Env) :
    Execute [Arg.word "management"] env
      = some (Run 33073 ⟨FlagParseOutcome.returns, env.listen, env.grpcServer,
          env.mgmtServer, env.serve⟩) := by
  simp [Execute, commandName, parseFlags, stdFlagParse, init, IntVar, Package.zero]

/-- Started as `management --port=v`, the command runs with port `v` and a
returning `flag.Parse`. -/
theorem Execute_port_after (env : Env) (v : Int) (hv : int64Range v = true) :
    Execute [Arg.word "management", Arg.flag "port" v] env
      = some (Run v ⟨FlagParseOutcome.returns, env.listen, env.grpcServer,
          env.mgmtServer, env.serve⟩) := by
  simp [Execute, commandName, parseFlags, stdFlagParse, init, IntVar, Package.zero, hv]

/-- Started as `--port=v management`, the command runs with port `v` and
`flag.Parse` exits with status 2. -/
theorem Execute_port_before (env : Env) (v : Int) (hv : int64Range v = true) :
    Execute [Arg.flag "port" v, Arg.word "management"] env
      = some (Run v ⟨FlagParseOutcome.exits 2, env.listen, env.grpcServer,
          env.mgmtServer, env.serve⟩) := by
  simp [Execute, commandName, parseFlags, stdFlagParse, init, IntVar, Package.zero, hv]

/-! ## The claims -/

/-- C1: with a successful bind and a server that keeps serving, `Run` is still
inside the `Serve` call, which it made on its own goroutine: the last call of
the execution is `Serve`, the shutdown handler is not installed and the
blocking `select` is not reached. -/
theorem C1_serve_holds_main_context (p : Int) (l : Listener) (g : GrpcServer)
    (m : MgmtServer) :
    (Run p ⟨FlagParseOutcome.returns, ListenOutcome.ok l, g, m, ServeOutcome.blocks⟩).res
        = Res.halt Halt.blockedInServe ∧
    (Run p ⟨FlagParseOutcome.returns, ListenOutcome.ok l, g, m,
        ServeOutcome.blocks⟩).trace.getLast?
        = some (Event.serve g (some l)) ∧
    Event.setupCloseHandler ∉
      (Run p ⟨FlagParseOutcome.returns, ListenOutcome.ok l, g, m, ServeOutcome.blocks⟩).trace ∧
    Event.select ∉
      (Run p ⟨FlagParseOutcome.returns, ListenOutcome.ok l, g, m, ServeOutcome.blocks⟩).trace := by
  rw [Run_serve_blocks]
  simp

/-- C2: when `net.Listen` is reached (`flag.Parse` returned) and returns an
error, the execution is exactly `flag.Parse`, one `net.Listen`, and the fatal
log "failed to listen" of line 25; the process exits with a non-zero status,
and no server is constructed, no service registered, `Serve` and
`SetupCloseHandler` are not called. -/
theorem C2_listen_error_fatal (p : Int) (env : Env) (e : GoError)
    (hf : env.flagParse = FlagParseOutcome.returns)
    (h : env.listen = ListenOutcome.fail e) :
    (Run p env).trace = [Event.flagParse, Event.netListen "tcp" (Sprintf ":%d" [p]),
        Event.fatalf 25 "failed to listen: %v" e] ∧
    (∃ status, (Run p env).res = Res.halt (Halt.exit status) ∧ status ≠ 0) ∧
    (Run p env).trace.countP Event.isNetListen = 1 ∧
    (∀ ev ∈ (Run p env).trace, ev.isGrpcNewServer = false ∧ ev.isRegister = false ∧
        ev.isServe = false ∧ ev ≠ Event.setupCloseHandler ∧ ev ≠ Event.select) := by
  obtain ⟨fp, ls, g, m, s⟩ := env
  simp only at hf h
  subst hf h
  rw [Run_listen_fail]
  refine ⟨rfl, ⟨1, rfl, by decide⟩, ?_, ?_⟩
  · simp [Event.isNetListen]
  · simp [Event.isGrpcNewServer, Event.isRegister, Event.isServe]

/-- Witness for C2 at port 33073 with a failing bind. -/
theorem C2_listen_error_fatal_witness :
    envListenFails.flagParse = FlagParseOutcome.returns ∧
    envListenFails.listen = ListenOutcome.fail ⟨7⟩ ∧
    (Run 33073 envListenFails).trace = [Event.flagParse, Event.netListen "tcp" ":33073",
        Event.fatalf 25 "failed to listen: %v" ⟨7⟩] ∧
    (Run 33073 envListenFails).res = Res.halt (Halt.exit 1) :=
  ⟨rfl, rfl, (C2_listen_error_fatal 33073 envListenFails ⟨7⟩ rfl rfl).1, by decide⟩

/-- C3: when `Serve` is reached (`flag.Parse` returned and the bind succeeded)
and returns an error, the execution is the setup calls, the single `Serve` call
and then the fatal log "failed to serve" of line 36; the process exits with a
non-zero status, `Serve` is called once, `SetupCloseHandler` is not called and
the `select` is not reached. -/
theorem C3_serve_error_fatal (p : Int) (env : Env) (l : Listener) (e : GoError)
    (hf : env.flagParse = FlagParseOutcome.returns)
    (hl : env.listen = ListenOutcome.ok l) (hs : env.serve = ServeOutcome.returnsErr e) :
    (Run p env).trace = [Event.flagParse, Event.netListen "tcp" (Sprintf ":%d" [p]),
        Event.grpcNewServer [] env.grpcServer, Event.mgmtNewServer env.mgmtServer,
        Event.registerManagementServiceServer env.grpcServer env.mgmtServer,
        Event.printf "started server: localhost:%v" p,
        Event.serve env.grpcServer (some l),
        Event.fatalf 36 "failed to serve: %v" e] ∧
    (∃ status, (Run p env).res = Res.halt (Halt.exit status) ∧ status ≠ 0) ∧
    (Run p env).trace.countP Event.isServe = 1 ∧
    Event.setupCloseHandler ∉ (Run p env).trace ∧
    Event.select ∉ (Run p env).trace := by
  obtain ⟨fp, ls, g, m, s⟩ := env
  simp only at hf hl hs
  subst hf hl hs
  rw [Run_serve_err]
  refine ⟨rfl, ⟨1, rfl, by decide⟩, ?_, ?_, ?_⟩
  · simp [Event.isServe]
  · simp
  · simp

/-- Witness for C3 at port 33073 with a failing `Serve`. -/
theorem C3_serve_error_fatal_witness :
    envServeFails.flagParse = FlagParseOutcome.returns ∧
    envServeFails.listen = ListenOutcome.ok ⟨1⟩ ∧
    envServeFails.serve = ServeOutcome.returnsErr ⟨9⟩ ∧
    (Run 33073 envServeFails).trace.countP Event.isServe = 1 ∧
    Event.setupCloseHandler ∉ (Run 33073 envServeFails).trace ∧
    Event.select ∉ (Run 33073 envServeFails).trace :=
  ⟨rfl, rfl, rfl, (C3_serve_error_fatal 33073 envServeFails ⟨1⟩ ⟨9⟩ rfl rfl rfl).2.2⟩

/-- C4: whenever `Serve` is called, at position `i` of the execution, on a
server `srv` with a listener `lis`, then `net.Listen` succeeded and `lis` is the
listener it returned, `srv` was returned by an earlier `grpc.NewServer` call,
and the management service was registered on that same `srv` by a call that
comes after the construction and before the `Serve` call. -/
theorem C4_register_before_serve (p : Int) (env : Env) (i : Nat) (srv : GrpcServer)
    (lis : Option Listener)
    (h : (Run p env).trace[i]? = some (Event.serve srv lis)) :
    ∃ l impl j k, k < j ∧ j < i ∧
      env.listen = ListenOutcome.ok l ∧ lis = some l ∧
      (Run p env).trace[k]? = some (Event.grpcNewServer [] srv) ∧
      (Run p env).trace[j]? = some (Event.registerManagementServiceServer srv impl) := by
  rcases Run_shapes env with ⟨st, ls, g, m, s, rfl⟩ | ⟨g, m, s, e, rfl⟩ | ⟨g, m, l, rfl⟩ |
    ⟨g, m, l, rfl⟩ | ⟨g, m, l, e, rfl⟩
  · rw [Run_parse_exits] at h
    rcases i with _ | i <;> simp at h
  · rw [Run_listen_fail] at h
    rcases i with _ | _ | _ | i <;> simp at h
  · rw [Run_serve_blocks] at h ⊢
    rcases i with _ | _ | _ | _ | _ | _ | _ | i <;> simp at h
    obtain ⟨rfl, rfl⟩ := h
    exact ⟨l, m, 4, 2, by decide, by decide, rfl, rfl, rfl, rfl⟩
  · rw [Run_serve_nil] at h ⊢
    rcases i with _ | _ | _ | _ | _ | _ | _ | _ | _ | i <;> simp at h
    obtain ⟨rfl, rfl⟩ := h
    exact ⟨l, m, 4, 2, by decide, by decide, rfl, rfl, rfl, rfl⟩
  · rw [Run_serve_err] at h ⊢
    rcases i with _ | _ | _ | _ | _ | _ | _ | _ | i <;> simp at h
    obtain ⟨rfl, rfl⟩ := h
    exact ⟨l, m, 4, 2, by decide, by decide, rfl, rfl, rfl, rfl⟩

/-- Witness for C4: with a server that keeps serving, the `Serve` call is the
seventh call of the execution. -/
theorem C4_register_before_serve_witness :
    (Run 33073 envServing).trace[6]? = some (Event.serve ⟨2⟩ (some ⟨1⟩)) ∧
    ∃ l impl j k, k < j ∧ j < 6 ∧
      envServing.listen = ListenOutcome.ok l ∧ some (⟨1⟩ : Listener) = some l ∧
      (Run 33073 envServing).trace[k]? = some (Event.grpcNewServer [] ⟨2⟩) ∧
      (Run 33073 envServing).trace[j]?
        = some (Event.registerManagementServiceServer ⟨2⟩ impl) :=
  ⟨by decide, C4_register_before_serve 33073 envServing 6 ⟨2⟩ (some ⟨1⟩) (by decide)⟩

/-- C5, the claim as written fails: started as `--port=8080 management`, the
standard library parser exits with status 2 at line 21 and `net.Listen` is
called zero times, not once. -/
theorem C5_listen_not_called :
    (Execute [Arg.flag "port" 8080, Arg.word "management"] envServing).map
        (fun r => (r.trace, r.res, r.trace.countP Event.isNetListen))
      = some ([Event.flagParse], Res.halt (Halt.exit 2), 0) ∧
    (Run 8080 envParseExits).trace.countP Event.isNetListen ≠ 1 := by
  decide

/-- C5 as amended: in every execution `net.Listen`, `grpc.NewServer`,
`RegisterManagementServiceServer` and `Serve` are each called at most once;
when `flag.Parse` returns, `net.Listen` is called exactly once, and the other
three exactly once when the bind succeeded. -/
theorem C5_single_calls (p : Int) (env : Env) :
    (Run p env).trace.countP Event.isNetListen ≤ 1 ∧
    (Run p env).trace.countP Event.isGrpcNewServer ≤ 1 ∧
    (Run p env).trace.countP Event.isRegister ≤ 1 ∧
    (Run p env).trace.countP Event.isServe ≤ 1 ∧
    (env.flagParse = FlagParseOutcome.returns →
      (Run p env).trace.countP Event.isNetListen = 1 ∧
      ∀ l, env.listen = ListenOutcome.ok l →
        (Run p env).trace.countP Event.isGrpcNewServer = 1 ∧
        (Run p env).trace.countP Event.isRegister = 1 ∧
        (Run p env).trace.countP Event.isServe = 1) := by
  rcases Run_shapes env with ⟨st, ls, g, m, s, rfl⟩ | ⟨g, m, s, e, rfl⟩ | ⟨g, m, l, rfl⟩ |
    ⟨g, m, l, rfl⟩ | ⟨g, m, l, e, rfl⟩
  · rw [Run_parse_exits]
    simp [Event.isNetListen, Event.isGrpcNewServer, Event.isRegister, Event.isServe]
  · rw [Run_listen_fail]
    simp [Event.isNetListen, Event.isGrpcNewServer, Event.isRegister, Event.isServe]
  · rw [Run_serve_blocks]
    simp [Event.isNetListen, Event.isGrpcNewServer, Event.isRegister, Event.isServe]
  · rw [Run_serve_nil]
    simp [Event.isNetListen, Event.isGrpcNewServer, Event.isRegister, Event.isServe]
  · rw [Run_serve_err]
    simp [Event.isNetListen, Event.isGrpcNewServer, Event.isRegister, Event.isServe]

/-- Witness for C5: with a returning `flag.Parse` and a successful bind each of
the four calls happens exactly once. -/
theorem C5_single_calls_witness :
    envServeStopped.flagParse = FlagParseOutcome.returns ∧
    (Run 33073 envServeStopped).trace.countP Event.isNetListen = 1 ∧
    (Run 33073 envServeStopped).trace.countP Event.isGrpcNewServer = 1 ∧
    (Run 33073 envServeStopped).trace.countP Event.isRegister = 1 ∧
    (Run 33073 envServeStopped).trace.countP Event.isServe = 1 :=
  ⟨rfl, ((C5_single_calls 33073 envServeStopped).2.2.2.2 rfl).1,
    ((C5_single_calls 33073 envServeStopped).2.2.2.2 rfl).2 ⟨1⟩ rfl⟩

/-- C6, the claim as written fails: started as `--port=70000 management`, `Run`
executes with port 70000 but the standard library parser exits with status 2 at
line 21, and the bind is never called. -/
theorem C6_bind_not_reached :
    (Execute [Arg.flag "port" 70000, Arg.word "management"] envServing).map
        (fun r => (r.trace, r.res))
      = some ([Event.flagParse], Res.halt (Halt.exit 2)) ∧
    Event.netListen "tcp" ":70000" ∉ (Run 70000 envParseExits).trace := by
  decide

/-- C6 as amended: for every integer port, every bind of an execution is on
network "tcp" and on the address made of a colon followed by the decimal
rendering of the port; when `flag.Parse` returns, the bind is the very next
call, so no value of the port is rejected before it. -/
theorem C6_listen_address (p : Int) (env : Env) :
    (∀ network address, Event.netListen network address ∈ (Run p env).trace →
      network = "tcp" ∧ address = ":" ++ toString p) ∧
    (env.flagParse = FlagParseOutcome.returns →
      (Run p env).trace.take 2
        = [Event.flagParse, Event.netListen "tcp" (":" ++ toString p)]) := by
  rcases Run_shapes env with ⟨st, ls, g, m, s, rfl⟩ | ⟨g, m, s, e, rfl⟩ | ⟨g, m, l, rfl⟩ |
    ⟨g, m, l, rfl⟩ | ⟨g, m, l, e, rfl⟩
  · rw [Run_parse_exits]
    simp
  · rw [Run_listen_fail, Sprintf_port_toString]
    simp
  · rw [Run_serve_blocks, Sprintf_port_toString]
    simp
  · rw [Run_serve_nil, Sprintf_port_toString]
    simp
  · rw [Run_serve_err, Sprintf_port_toString]
    simp

/-- Witness for C6: ports outside 1-65535 reach the bind unchanged when
`flag.Parse` returns. -/
theorem C6_listen_address_witness :
    envServing.flagParse = FlagParseOutcome.returns ∧
    (Run 0 envServing).trace.take 2
      = [Event.flagParse, Event.netListen "tcp" ":0"] ∧
    (Run (-1) envServing).trace.take 2
      = [Event.flagParse, Event.netListen "tcp" ":-1"] ∧
    (Run 70000 envServing).trace.take 2
      = [Event.flagParse, Event.netListen "tcp" ":70000"] :=
  ⟨rfl, (C6_listen_address 0 envServing).2 rfl, (C6_listen_address (-1) envServing).2 rfl,
    (C6_listen_address 70000 envServing).2 rfl⟩

/-- C7, the claim as written fails: started as `--port=8080 management`, the
value 8080 is supplied and stored in `mgmtPort`, but the standard library
parser exits with status 2 at line 21: no listen address is built from it and
no log line reports it. -/
theorem C7_port_before_command :
    (parseFlags (init Package.zero) [Arg.flag "port" 8080, Arg.word "management"]).map
        Package.mgmtPort = some 8080 ∧
    (Execute [Arg.flag "port" 8080, Arg.word "management"] envServeStopped).map
        (fun r => (r.trace, r.res))
      = some ([Event.flagParse], Res.halt (Halt.exit 2)) ∧
    (Execute [Arg.flag "port" 8080, Arg.word "management"] envServeStopped).map
        (fun r => decide (Event.netListen "tcp" ":8080" ∈ r.trace))
      = some false := by
  decide

/-- C7 as amended: `init` registers exactly one flag on the command, named
"port" with default 33073, and stores the default in `mgmtPort`.  Started as
`management` with no flag, the command builds the listen address ":33073" and,
after a successful bind, reports 33073 in the started-server log line.
Started as `management --port=v` with `v` a 64-bit integer, it uses `v` in both
places.  In both cases `flag.Parse` returns. -/
theorem C7_port_flag_default (env : Env) (v : Int) (hv : int64Range v = true) :
    (init Package.zero).persistentFlags.map IntFlag.name = ["port"] ∧
    (init Package.zero).persistentFlags.map IntFlag.value = [33073] ∧
    (init Package.zero).mgmtPort = 33073 ∧
    (∃ r, Execute [Arg.word "management"] env = some r ∧
      r.trace.take 2 = [Event.flagParse, Event.netListen "tcp" ":33073"] ∧
      (∀ format a, Event.printf format a ∈ r.trace → a = 33073) ∧
      (∀ l, env.listen = ListenOutcome.ok l →
        r.trace[5]? = some (Event.printf "started server: localhost:%v" 33073))) ∧
    (∃ r, Execute [Arg.word "management", Arg.flag "port" v] env = some r ∧
      r.trace.take 2 = [Event.flagParse, Event.netListen "tcp" (":" ++ toString v)] ∧
      (∀ format a, Event.printf format a ∈ r.trace → a = v) ∧
      (∀ l, env.listen = ListenOutcome.ok l →
        r.trace[5]? = some (Event.printf "started server: localhost:%v" v))) := by
  refine ⟨rfl, rfl, rfl, ⟨_, Execute_default env, ?_⟩, ⟨_, Execute_port_after env v hv, ?_⟩⟩
  · exact Run_port_use 33073 env.listen env.grpcServer env.mgmtServer env.serve
  · exact Run_port_use v env.listen env.grpcServer env.mgmtServer env.serve

/-- Witness for C7: the bind address and the started-server log line of a run
started as `management --port=8080`, and the log line of a run started as
`management`. -/
theorem C7_port_flag_default_witness :
    int64Range 8080 = true ∧
    (∃ r, Execute [Arg.word "management", Arg.flag "port" 8080] envServeStopped = some r ∧
      r.trace.take 2 = [Event.flagParse, Event.netListen "tcp" ":8080"] ∧
      r.trace[5]? = some (Event.printf "started server: localhost:%v" 8080)) ∧
    (∃ r, Execute [Arg.word "management"] envServeStopped = some r ∧
      r.trace.take 2 = [Event.flagParse, Event.netListen "tcp" ":33073"] ∧
      r.trace[5]? = some (Event.printf "started server: localhost:%v" 33073)) := by
  obtain ⟨_, _, _, ⟨r0, h0, a0, _, l0⟩, ⟨r1, h1, a1, _, l1⟩⟩ :=
    C7_port_flag_default envServeStopped 8080 (by decide)
  exact ⟨by decide, ⟨r1, h1, a1, l1 ⟨1⟩ rfl⟩, ⟨r0, h0, a0, l0 ⟨1⟩ rfl⟩⟩

/-- C8, the claim as written fails: started as `--port=33073 management`, the
execution of `Run` ends by the exit with status 2 inside `flag.Parse`, with no
`log.Fatalf` call, not inside `Serve` and not at the `select`. -/
theorem C8_exit_inside_flag_parse :
    stdFlagParse [Arg.flag "port" 33073, Arg.word "management"] = envParseExits.flagParse ∧
    (Run 33073 envParseExits).trace = [Event.flagParse] ∧
    (Run 33073 envParseExits).res = Res.halt (Halt.exit 2) ∧
    (Run 33073 envParseExits).trace.countP Event.isFatalf = 0 ∧
    (Run 33073 envParseExits).res ≠ Res.halt Halt.blockedInServe ∧
    (Run 33073 envParseExits).res ≠ Res.halt Halt.parked := by
  decide

/-- C8 as amended: no execution of `Run` returns to its caller.  Every
execution ends in one of four ways: the process exits inside `flag.Parse`, or
it exits with status 1 right after a `log.Fatalf` call, or the goroutine is
blocked inside `Serve`, or it is parked at the empty `select`. -/
theorem C8_run_never_returns (p : Int) (env : Env) :
    (∀ u, (Run p env).res ≠ Res.ret u) ∧
    ((∃ status, env.flagParse = FlagParseOutcome.exits status ∧
        (Run p env).res = Res.halt (Halt.exit status) ∧
        (Run p env).trace = [Event.flagParse]) ∨
     ((Run p env).res = Res.halt (Halt.exit 1) ∧
        ∃ line format e, (Run p env).trace.getLast? = some (Event.fatalf line format e)) ∨
     ((Run p env).res = Res.halt Halt.blockedInServe ∧
        ∃ srv lis, (Run p env).trace.getLast? = some (Event.serve srv lis)) ∨
     ((Run p env).res = Res.halt Halt.parked ∧
        (Run p env).trace.getLast? = some Event.select)) := by
  rcases Run_shapes env with ⟨st, ls, g, m, s, rfl⟩ | ⟨g, m, s, e, rfl⟩ | ⟨g, m, l, rfl⟩ |
    ⟨g, m, l, rfl⟩ | ⟨g, m, l, e, rfl⟩
  · rw [Run_parse_exits]
    simp
  · rw [Run_listen_fail]
    simp
  · rw [Run_serve_blocks]
    simp
  · rw [Run_serve_nil]
    simp
  · rw [Run_serve_err]
    simp

/-- C9: `SetupCloseHandler` is called exactly in the executions where the bind
was reached and succeeded and `Serve` returned nil; when it is called, the
execution ends with the `Serve` call, then `SetupCloseHandler`, then the empty
`select`, at which the goroutine is parked. -/
theorem C9_close_handler_iff (p : Int) (env : Env) :
    (Event.setupCloseHandler ∈ (Run p env).trace ↔
      env.flagParse = FlagParseOutcome.returns ∧
      (∃ l, env.listen = ListenOutcome.ok l) ∧ env.serve = ServeOutcome.returnsNil) ∧
    (Event.setupCloseHandler ∈ (Run p env).trace →
      ∃ pre srv lis, (Run p env).trace
          = pre ++ [Event.serve srv lis, Event.setupCloseHandler, Event.select] ∧
        Event.setupCloseHandler ∉ pre ∧
        (Run p env).res = Res.halt Halt.parked) := by
  rcases Run_shapes env with ⟨st, ls, g, m, s, rfl⟩ | ⟨g, m, s, e, rfl⟩ | ⟨g, m, l, rfl⟩ |
    ⟨g, m, l, rfl⟩ | ⟨g, m, l, e, rfl⟩
  · rw [Run_parse_exits]
    simp
  · rw [Run_listen_fail]
    simp
  · rw [Run_serve_blocks]
    simp
  · rw [Run_serve_nil]
    refine ⟨by simp, fun _ => ⟨[Event.flagParse, Event.netListen "tcp" (Sprintf ":%d" [p]),
      Event.grpcNewServer [] g, Event.mgmtNewServer m,
      Event.registerManagementServiceServer g m,
      Event.printf "started server: localhost:%v" p], g, some l, rfl, by simp, rfl⟩⟩
  · rw [Run_serve_err]
    simp

/-- Witness for C9: after `Serve` returned nil the handler is installed, with
a server that keeps serving it is not. -/
theorem C9_close_handler_iff_witness :
    Event.setupCloseHandler ∈ (Run 33073 envServeStopped).trace ∧
    Event.setupCloseHandler ∉ (Run 33073 envServing).trace ∧
    (envServeStopped.flagParse = FlagParseOutcome.returns ∧
      (∃ l, envServeStopped.listen = ListenOutcome.ok l) ∧
      envServeStopped.serve = ServeOutcome.returnsNil) :=
  ⟨by decide, by decide, (C9_close_handler_iff 33073 envServeStopped).1.mp (by decide)⟩

/-- C10: the `log.Fatalf` of line 29 is never executed: when the bind fails the
execution already ended with the `log.Fatalf` of line 25.  `Run` and the same
body without the second check perform the same calls and end the same way, for
every port and every outcome of `flag.Parse`, `net.Listen` and `Serve`. -/
theorem C10_second_check_dead (p : Int) (env : Env) :
    (Run p env).trace.countP (Event.isFatalfAt 29) = 0 ∧
    (∀ e, env.flagParse = FlagParseOutcome.returns → env.listen = ListenOutcome.fail e →
      (Run p env).trace.getLast? = some (Event.fatalf 25 "failed to listen: %v" e)) ∧
    Run p env = RunWithoutSecondCheck p env := by
  rcases Run_shapes env with ⟨st, ls, g, m, s, rfl⟩ | ⟨g, m, s, e, rfl⟩ | ⟨g, m, l, rfl⟩ |
    ⟨g, m, l, rfl⟩ | ⟨g, m, l, e, rfl⟩
  · refine ⟨?_, ?_, rfl⟩
    · rw [Run_parse_exits]
      simp [Event.isFatalfAt]
    · simp
  · refine ⟨?_, ?_, rfl⟩
    · rw [Run_listen_fail]
      simp [Event.isFatalfAt]
    · rw [Run_listen_fail]
      simp
  · refine ⟨?_, ?_, rfl⟩
    · rw [Run_serve_blocks]
      simp [Event.isFatalfAt]
    · simp
  · refine ⟨?_, ?_, rfl⟩
    · rw [Run_serve_nil]
      simp [Event.isFatalfAt]
    · simp
  · refine ⟨?_, ?_, rfl⟩
    · rw [Run_serve_err]
      simp [Event.isFatalfAt]
    · simp

/-- Witness for C10: a failing bind ends the execution at line 25. -/
theorem C10_second_check_dead_witness :
    (Run 33073 envListenFails).trace.getLast?
      = some (Event.fatalf 25 "failed to listen: %v" ⟨7⟩) ∧
    (Run 33073 envListenFails).trace.countP (Event.isFatalfAt 25) = 1 :=
  ⟨(C10_second_check_dead 33073 envListenFails).2.1 ⟨7⟩ rfl rfl, by decide⟩

end Management
